import Mathlib

/-!
# Verification of the display-lifecycle worker of `telegram_bot.py`

This file gives a shallow embedding of `thread_display` (the display
worker of the QR-display bot) and proves the behavioural claims made by
the specification about it.

The worker is embedded as a trace semantics: one execution is driven by a
finite *schedule* of poll ticks.  Each `Tick` records what the
environment did for one iteration of the `while` loop at line 47 of the
source: whether the shutdown condition (`do_run` cleared or the
`pill2kill` event set) was observed by that iteration's check, and which
frames producers pushed into the queue since the previous check.  Running
the worker over a schedule yields the ordered trace of hardware /
logging / sleeping operations it performs (`Op`), the ordered list of
frames it actually displayed, an outcome, and the final worker state.

`time.sleep` durations are recorded in milliseconds on the `sleep`
operations; `p2k.wait(1)` is recorded as `waitSig 1000` (a bounded wait
that returns immediately once the event is set).
-/

namespace QrDisplay

/-- One RGB pixel triple, as produced by `Image.getdata()`. -/
abbrev Pixel : Type := Nat × Nat × Nat

/-- A frame: a row-major list of pixel triples for the panel. -/
abbrev Frame : Type := List Pixel

/-- The panel's pixel count: the ST7789V panel is 240×320. -/
def panelPixelCount : Nat := 240 * 320

/-- Observable operations of the display worker, in the order the worker
performs them.  Hardware calls mirror the `st7789v` `Display` API used by
the source; `sleep` and `waitSig` carry their duration in milliseconds. -/
inductive Op : Type where
  | acquire
  | release
  | initPanel (colorMode : Nat) (inverted : Bool)
  | turnOn
  | turnOff
  | setBacklight (level : Nat)
  | setColorMode (mode : Nat)
  | draw (frame : Frame)
  | sleep (ms : Int)
  | waitSig (timeoutMs : Int)
  | logInfo (msg : String)
  | logDebug (msg : String)
deriving DecidableEq

/-- Errors that can end the worker: `valueError` from `int(...)` at
startup (line 34), `invalidFrameSize` from a draw on a frame whose length
is not the panel pixel count. -/
inductive WorkerErr : Type where
  | valueError
  | invalidFrameSize
deriving DecidableEq

/-- How a run ended: `completed` when the loop exited via the shutdown
condition and the cleanup at lines 71–74 ran; `crashed` when an exception
propagated; `suspended` when the schedule ended with the worker still
looping (no cleanup has run yet). -/
inductive RunResult : Type where
  | completed
  | crashed (e : WorkerErr)
  | suspended
deriving DecidableEq

/-- Environment input for one iteration of the `while` loop: the value of
the shutdown condition seen by this iteration's check, and the frames
producers enqueued (in order) since the previous check. -/
structure Tick : Type where
  shutdown : Bool
  arrivals : List Frame
deriving DecidableEq

/-- The worker's loop-carried state: the FIFO queue contents (head =
oldest) and the edge-trigger flag `is_log_turn_off` of line 44. -/
structure WState : Type where
  queue : List Frame
  is_log_turn_off : Bool
deriving DecidableEq

/-- The outcome of running the worker over a schedule. `shown` is the
ordered list of frames whose display cycle was performed. -/
structure RunOut : Type where
  trace : List Op
  shown : List Frame
  result : RunResult
  final : WState
deriving DecidableEq

/-! ## Startup configuration: `int(os.getenv("IMAGE_DISPLAY_SEC", "10"))` -/

/-- Digit-sequence part of CPython's `int(str)`: decimal digits with
single underscores allowed strictly between digits.  `acc` is the value
accumulated so far, `prevDigit` whether the previous character was a
digit (so that an underscore is legal, and so that the sequence may
end). -/
def pyDigits : List Char → Nat → Bool → Option Nat
  | [], acc, prevDigit => if prevDigit then some acc else none
  | c :: rest, acc, prevDigit =>
    if c = '_' then
      if prevDigit then pyDigits rest acc false else none
    else if c.isDigit then
      pyDigits rest (10 * acc + (c.toNat - 48)) true
    else none

/-- Strip leading and trailing whitespace, as `int(str)` does. -/
def pyStripWs (cs : List Char) : List Char :=
  ((cs.dropWhile Char.isWhitespace).reverse.dropWhile Char.isWhitespace).reverse

/-- CPython's `int(s)` on a string: optional whitespace, optional sign,
then a non-empty digit sequence (underscores between digits allowed);
`none` models the `ValueError` raised on anything else. -/
def pyInt (s : String) : Option Int :=
  match pyStripWs s.toList with
  | '-' :: rest => (pyDigits rest 0 false).map (fun n => -(n : Int))
  | '+' :: rest => (pyDigits rest 0 false).map (fun n => (n : Int))
  | cs => (pyDigits cs 0 false).map (fun n => (n : Int))

/-- Line 34: `img_dsp_sec = int(os.getenv("IMAGE_DISPLAY_SEC", "10"))`.
`env` is the value of the environment variable (`none` = unset,
`os.getenv` then supplies the default string `"10"`). -/
def imgDspSecOf (env : Option String) : Option Int :=
  pyInt (env.getD "10")

/-! ## The worker's operation blocks -/

/-- Line 41: the all-black clear frame `[[0, 0, 0]] * 240 * 320`. -/
def clearFrame : Frame := List.replicate (240 * 320) (0, 0, 0)

/-- Line 33: the log line emitted before the configuration is parsed. -/
def startOps : List Op := [.logInfo "thread_display | Start."]

/-- Lines 36–46: acquire the hardware (`with RaspberryPi()`), initialize
the panel, draw the clear frame, log readiness. -/
def initOps : List Op :=
  [.acquire, .initPanel 666 false, .draw clearFrame,
   .logInfo "thread_display | Display init."]

/-- Lines 51–62, one display cycle for a dequeued frame.  Modelled from
the spec: the `st7789v` `Display.draw_rgb_bytes` implementation is not in
the repository source; per spec §4.1 `draw` validates
`frame.length == panel pixel count` and fails with `InvalidFrameSize`
otherwise.  On a wrong-sized frame the operations before the first draw
have already been performed and the error is returned. -/
def showCycle (sec : Int) (f : Frame) : List Op × Option WorkerErr :=
  if f.length = panelPixelCount then
    ([.logInfo "thread_display | Got data. Displaying",
      .turnOn, .sleep 250, .setBacklight 1,
      .draw f, .sleep 5000, .setColorMode 666, .draw f,
      .sleep (sec * 1000),
      .logDebug "thread_display | Display Done"], none)
  else
    ([.logInfo "thread_display | Got data. Displaying",
      .turnOn, .sleep 250, .setBacklight 1], some .invalidFrameSize)

/-- Lines 63–69, the `except Empty` branch: log the power-down once per
idle episode (edge-triggered on `is_log_turn_off`), then unconditionally
backlight off, sleep 1 s, panel off. -/
def idleOps (is_log_turn_off : Bool) : List Op :=
  (if is_log_turn_off then []
   else [.logInfo "thread_display | No data data. Turning off."])
    ++ [.setBacklight 0, .sleep 1000, .turnOff]

/-- Lines 71–74: the cleanup run after the `while` loop exits normally. -/
def cleanupOps : List Op :=
  [.logInfo "thread_display | Turning off display.",
   .setBacklight 0, .turnOff,
   .logInfo "thread_display | Stop."]

/-! ## The loop -/

/-- The `while` loop of lines 47–69, driven by a schedule of ticks.  Each
iteration: producer arrivals are appended to the queue, the loop
condition checks the shutdown signal (bounded `waitSig 1000`), then
`q.get_nowait()` either dequeues the head frame and runs its display
cycle or hits `Empty` and runs the idle block.  A failed draw propagates
out of the loop (the `except` clause catches only `Empty`), skipping the
cleanup of lines 71–74. -/
def loopRun (sec : Int) : WState → List Tick → RunOut
  | s, [] => ⟨[], [], .suspended, s⟩
  | s, t :: rest =>
    if t.shutdown then
      ⟨.waitSig 1000 :: cleanupOps, [], .completed,
        ⟨s.queue ++ t.arrivals, s.is_log_turn_off⟩⟩
    else
      match s.queue ++ t.arrivals with
      | [] =>
        let out := loopRun sec ⟨[], true⟩ rest
        ⟨.waitSig 1000 :: (idleOps s.is_log_turn_off ++ out.trace),
          out.shown, out.result, out.final⟩
      | f :: q2 =>
        match showCycle sec f with
        | (ops, none) =>
          let out := loopRun sec ⟨q2, false⟩ rest
          ⟨.waitSig 1000 :: (ops ++ out.trace), f :: out.shown,
            out.result, out.final⟩
        | (ops, some e) =>
          ⟨.waitSig 1000 :: ops, [], .crashed e, ⟨q2, false⟩⟩

/-- `thread_display` (lines 31–74): log start, parse the hold duration
(a bad value raises `ValueError` before any hardware is touched), then
acquire the hardware, initialize, clear, and run the loop.  The hardware
is released (`with` block exit) whenever the loop exits, normally or
exceptionally; a `suspended` run is still inside the loop. -/
def thread_display (env : Option String) (sched : List Tick) : RunOut :=
  match imgDspSecOf env with
  | none => ⟨startOps, [], .crashed .valueError, ⟨[], false⟩⟩
  | some sec =>
    let out := loopRun sec ⟨[], false⟩ sched
    let rel : List Op :=
      match out.result with
      | .suspended => []
      | _ => [.release]
    ⟨startOps ++ initOps ++ out.trace ++ rel, out.shown, out.result, out.final⟩

/-- All frames a schedule's producers enqueue, in arrival order. -/
def enqueuedFrames (sched : List Tick) : List Frame :=
  (sched.map (·.arrivals)).flatten

/-- A tick whose arriving frames all have the panel pixel count. -/
def validTick (t : Tick) : Prop :=
  ∀ f ∈ t.arrivals, f.length = panelPixelCount

/-! ## Basic lemmas -/

theorem clearFrame_length : clearFrame.length = panelPixelCount := by
  unfold clearFrame panelPixelCount
  exact List.length_replicate _ _

theorem showCycle_of_valid (sec : Int) {f : Frame}
    (hf : f.length = panelPixelCount) :
    showCycle sec f =
      ([.logInfo "thread_display | Got data. Displaying",
        .turnOn, .sleep 250, .setBacklight 1,
        .draw f, .sleep 5000, .setColorMode 666, .draw f,
        .sleep (sec * 1000),
        .logDebug "thread_display | Display Done"], none) := by
  simp [showCycle, hf]

theorem showCycle_of_invalid (sec : Int) {f : Frame}
    (hf : f.length ≠ panelPixelCount) :
    showCycle sec f =
      ([.logInfo "thread_display | Got data. Displaying",
        .turnOn, .sleep 250, .setBacklight 1], some .invalidFrameSize) := by
  simp [showCycle, hf]

/-- If the loop exits through the shutdown condition, the cleanup of
lines 71–74 is the suffix of its trace and the run completes. -/
theorem loopRun_shutdown_completed (sec : Int) :
    ∀ (sched : List Tick) (s : WState),
      (∀ t ∈ sched, validTick t) →
      (∀ f ∈ s.queue, f.length = panelPixelCount) →
      (∃ t ∈ sched, t.shutdown = true) →
      (loopRun sec s sched).result = .completed ∧
        ∃ pre, (loopRun sec s sched).trace = pre ++ cleanupOps := by
  intro sched
  induction sched with
  | nil =>
    intro s _ _ hex
    rcases hex with ⟨t, ht, _⟩
    cases ht
  | cons t rest ih =>
    intro s hv hq hex
    by_cases hs : t.shutdown
    · constructor
      · simp [loopRun, hs]
      · exact ⟨[Op.waitSig 1000], by simp [loopRun, hs]⟩
    · have hex2 : ∃ u ∈ rest, u.shutdown = true := by
        rcases hex with ⟨u, hu, hus⟩
        rcases List.mem_cons.mp hu with h | h
        · exact absurd (h ▸ hus) hs
        · exact ⟨u, h, hus⟩
      have hv2 : ∀ u ∈ rest, validTick u := fun u hu => hv u (List.mem_cons_of_mem _ hu)
      have hqv : ∀ f ∈ s.queue ++ t.arrivals, f.length = panelPixelCount := by
        intro f hf
        rcases List.mem_append.mp hf with h | h
        · exact hq f h
        · exact hv t (List.mem_cons_self _ _) f h
      cases hq2 : s.queue ++ t.arrivals with
      | nil =>
        rcases ih ⟨[], true⟩ hv2 (by intro f hf; cases hf) hex2 with ⟨hr, p, hp⟩
        constructor
        · simpa [loopRun, hs, hq2] using hr
        · refine ⟨.waitSig 1000 :: (idleOps s.is_log_turn_off ++ p), ?_⟩
          simp [loopRun, hs, hq2, hp]
      | cons f q2 =>
        have hf : f.length = panelPixelCount := hqv f (hq2 ▸ List.mem_cons_self _ _)
        have hq2v : ∀ g ∈ q2, g.length = panelPixelCount := by
          intro g hg
          exact hqv g (hq2 ▸ List.mem_cons_of_mem _ hg)
        rcases ih ⟨q2, false⟩ hv2 hq2v hex2 with ⟨hr, p, hp⟩
        constructor
        · simpa [loopRun, hs, hq2, showCycle_of_valid sec hf] using hr
        · refine ⟨.waitSig 1000 ::
            ([.logInfo "thread_display | Got data. Displaying",
              .turnOn, .sleep 250, .setBacklight 1,
              .draw f, .sleep 5000, .setColorMode 666, .draw f,
              .sleep (sec * 1000),
              .logDebug "thread_display | Display Done"] ++ p), ?_⟩
          simp [loopRun, hs, hq2, showCycle_of_valid sec hf, hp]

/-- C1: raising the Shutdown Signal in any state makes the worker run
`set_backlight(0)` and `turn_off()` after leaving its main loop and
before its task ends: the run completes and the trace ends with the
cleanup block followed by the hardware release. -/
theorem shutdown_forces_power_off (env : Option String) (sec : Int)
    (sched : List Tick)
    (hsec : imgDspSecOf env = some sec)
    (hv : ∀ t ∈ sched, validTick t)
    (hex : ∃ t ∈ sched, t.shutdown = true) :
    (thread_display env sched).result = .completed ∧
      ∃ pre, (thread_display env sched).trace =
        pre ++ [.logInfo "thread_display | Turning off display.",
                .setBacklight 0, .turnOff,
                .logInfo "thread_display | Stop.", .release] := by
  rcases loopRun_shutdown_completed sec sched ⟨[], false⟩ hv
      (by intro f hf; cases hf) hex with ⟨hr, p, hp⟩
  constructor
  · simp [thread_display, hsec, hr]
  · refine ⟨startOps ++ initOps ++ p, ?_⟩
    simp [thread_display, hsec, hr, hp, cleanupOps]

/-- Witness for C1 at a concrete input: the worker is started with the
hold-duration variable unset and shut down at the first poll. -/
theorem shutdown_forces_power_off_witness :
    (thread_display none [⟨true, []⟩]).result = .completed ∧
      ∃ pre, (thread_display none [⟨true, []⟩]).trace =
        pre ++ [.logInfo "thread_display | Turning off display.",
                .setBacklight 0, .turnOff,
                .logInfo "thread_display | Stop.", .release] :=
  shutdown_forces_power_off none 10 [⟨true, []⟩] rfl
    (by intro t ht f hf; simp at ht; simp [ht] at hf)
    ⟨⟨true, []⟩, by simp, rfl⟩

/-! ## Backlight ordering -/

/-- The backlight level set by the most recent `setBacklight` in the
list, starting from `b` (`none` = not yet set since observation began). -/
def blAfter : List Op → Option Nat → Option Nat
  | [], b => b
  | .setBacklight n :: r, _ => blAfter r (some n)
  | _ :: r, b => blAfter r b

/-- `true` iff every `turnOff` in the list happens while the most recent
`setBacklight` (starting from level `b`) set level `0`. -/
def offSafe : List Op → Option Nat → Bool
  | [], _ => true
  | .setBacklight n :: r, _ => offSafe r (some n)
  | .turnOff :: r, b => (b == some 0) && offSafe r b
  | _ :: r, b => offSafe r b

theorem offSafe_append (xs ys : List Op) (b : Option Nat) :
    offSafe (xs ++ ys) b = (offSafe xs b && offSafe ys (blAfter xs b)) := by
  induction xs generalizing b with
  | nil => simp [offSafe, blAfter]
  | cons o r ih => cases o <;> simp [offSafe, blAfter, ih, Bool.and_assoc]

theorem offSafe_idleOps (l : Bool) (b : Option Nat) :
    offSafe (idleOps l) b = true := by
  cases l <;> simp [idleOps, offSafe]

theorem offSafe_cleanupOps (b : Option Nat) : offSafe cleanupOps b = true := by
  simp [cleanupOps, offSafe]

theorem offSafe_showCycle (sec : Int) (f : Frame) (b : Option Nat) :
    offSafe (showCycle sec f).1 b = true := by
  by_cases hf : f.length = panelPixelCount
  · simp [showCycle_of_valid sec hf, offSafe]
  · simp [showCycle_of_invalid sec hf, offSafe]

theorem offSafe_loopRun (sec : Int) :
    ∀ (sched : List Tick) (s : WState) (b : Option Nat),
      offSafe (loopRun sec s sched).trace b = true := by
  intro sched
  induction sched with
  | nil => intro s b; simp [loopRun, offSafe]
  | cons t rest ih =>
    intro s b
    by_cases hs : t.shutdown
    · simp [loopRun, hs, offSafe, offSafe_cleanupOps]
    · cases hq : s.queue ++ t.arrivals with
      | nil =>
        simp [loopRun, hs, hq, offSafe, offSafe_append, offSafe_idleOps, ih]
      | cons f q2 =>
        by_cases hf : f.length = panelPixelCount
        · simp [loopRun, hs, hq, showCycle_of_valid sec hf, offSafe,
            offSafe_append, ih]
        · simp [loopRun, hs, hq, showCycle_of_invalid sec hf, offSafe]

/-- C6: the worker never calls `turn_off()` without the most recent
`set_backlight` having set level `0`: in every execution (any
configuration, any schedule, any assumed initial backlight level `b`)
every `turnOff` of the trace is preceded by `setBacklight 0` with no
intervening `setBacklight` of another level. -/
theorem backlight_off_before_panel_off (env : Option String)
    (sched : List Tick) (b : Option Nat) :
    offSafe (thread_display env sched).trace b = true := by
  cases hsec : imgDspSecOf env with
  | none => simp [thread_display, hsec, startOps, offSafe]
  | some sec =>
    cases hres : (loopRun sec ⟨[], false⟩ sched).result with
    | completed =>
      simp [thread_display, hsec, hres, offSafe_append, startOps, initOps,
        offSafe, offSafe_loopRun]
    | crashed e =>
      simp [thread_display, hsec, hres, offSafe_append, startOps, initOps,
        offSafe, offSafe_loopRun]
    | suspended =>
      simp [thread_display, hsec, hres, offSafe_append, startOps, initOps,
        offSafe, offSafe_loopRun]

/-! ## Shutdown responsiveness -/

/-- The loop never runs past its first shutdown tick: whatever follows
that tick in the schedule is irrelevant to the run. -/
theorem loopRun_stops_at_shutdown (sec : Int) :
    ∀ (pre : List Tick) (s : WState) (t : Tick) (rest : List Tick),
      t.shutdown = true →
      loopRun sec s (pre ++ t :: rest) = loopRun sec s (pre ++ [t]) := by
  intro pre
  induction pre with
  | nil =>
    intro s t rest ht
    simp [loopRun, ht]
  | cons u pre ih =>
    intro s t rest ht
    by_cases hu : u.shutdown
    · simp [loopRun, hu]
    · cases hq : s.queue ++ u.arrivals with
      | nil => simp [loopRun, hu, hq, ih _ _ _ ht]
      | cons f q2 =>
        rcases hsc : showCycle sec f with ⟨ops, _ | e⟩
        · simp [loopRun, hu, hq, hsc, ih _ _ _ ht]
        · simp [loopRun, hu, hq, hsc]

/-- C5: each loop iteration waits on the Shutdown Signal with a 1-second
timeout (`p2k.wait(1)`), the run stops at the first shutdown tick — the
shutdown tick itself only performs the bounded wait and the cleanup — and
the queue check is non-blocking: the idle branch performs no wait on the
signal beyond the single per-iteration one. -/
theorem idle_shutdown_within_one_poll (sec : Int) :
    (∀ (s : WState) (pre : List Tick) (t : Tick) (rest : List Tick),
        t.shutdown = true →
        loopRun sec s (pre ++ t :: rest) = loopRun sec s (pre ++ [t])) ∧
    (∀ (s : WState) (t : Tick) (rest : List Tick), t.shutdown = true →
        loopRun sec s (t :: rest) =
          ⟨[.waitSig 1000, .logInfo "thread_display | Turning off display.",
            .setBacklight 0, .turnOff, .logInfo "thread_display | Stop."],
           [], .completed, ⟨s.queue ++ t.arrivals, s.is_log_turn_off⟩⟩) ∧
    (∀ (l : Bool), Op.waitSig 1000 ∉ idleOps l) ∧
    (∀ (s : WState) (t : Tick) (rest : List Tick),
        t.shutdown = false → t.arrivals = [] → s.queue = [] →
        (loopRun sec s (t :: rest)).trace =
          .waitSig 1000 :: (idleOps s.is_log_turn_off ++
            (loopRun sec ⟨[], true⟩ rest).trace)) := by
  refine ⟨fun s pre t rest ht => loopRun_stops_at_shutdown sec pre s t rest ht,
    ?_, ?_, ?_⟩
  · intro s t rest ht
    simp [loopRun, ht, cleanupOps]
  · intro l
    cases l <;> simp [idleOps]
  · intro s t rest hs ha hq
    simp [loopRun, hs, ha, hq]

/-- Witness for C5: a concrete schedule whose second tick raises the
signal; the trailing tick is never executed. -/
theorem idle_shutdown_within_one_poll_witness :
    loopRun 10 ⟨[], false⟩ ([⟨false, []⟩] ++ ⟨true, []⟩ :: [⟨false, []⟩]) =
      loopRun 10 ⟨[], false⟩ ([⟨false, []⟩] ++ [⟨true, []⟩]) :=
  (idle_shutdown_within_one_poll 10).1 ⟨[], false⟩ [⟨false, []⟩] ⟨true, []⟩
    [⟨false, []⟩] rfl

/-- C9: on every empty-queue poll tick the worker unconditionally runs
`set_backlight(0)`, a 1-second sleep and `turn_off()` — whatever the
value of the edge-trigger flag — while the "turning off" log line is
emitted only when the flag is still unset. -/
theorem every_idle_tick_powers_down (sec : Int) (s : WState) (t : Tick)
    (rest : List Tick)
    (hs : t.shutdown = false) (ha : t.arrivals = []) (hq : s.queue = []) :
    (loopRun sec s (t :: rest)).trace =
      .waitSig 1000 ::
        ((if s.is_log_turn_off then []
          else [Op.logInfo "thread_display | No data data. Turning off."]) ++
         ([.setBacklight 0, .sleep 1000, .turnOff] ++
          (loopRun sec ⟨[], true⟩ rest).trace)) := by
  simp [loopRun, hs, ha, hq, idleOps]

/-- Witness for C9: one concrete empty-queue tick with the flag already
set; the hardware calls still happen, the log line does not. -/
theorem every_idle_tick_powers_down_witness :
    (loopRun 10 ⟨[], true⟩ [⟨false, []⟩]).trace =
      .waitSig 1000 ::
        ((if (true : Bool) then []
          else [Op.logInfo "thread_display | No data data. Turning off."]) ++
         ([.setBacklight 0, .sleep 1000, .turnOff] ++
          (loopRun 10 ⟨[], true⟩ []).trace)) :=
  every_idle_tick_powers_down 10 ⟨[], true⟩ ⟨false, []⟩ [] rfl rfl rfl

/-! ## FIFO ordering -/

theorem enqueuedFrames_nil : enqueuedFrames [] = [] := rfl

theorem enqueuedFrames_cons (t : Tick) (rest : List Tick) :
    enqueuedFrames (t :: rest) = t.arrivals ++ enqueuedFrames rest := by
  simp [enqueuedFrames]

theorem enqueuedFrames_append (xs ys : List Tick) :
    enqueuedFrames (xs ++ ys) = enqueuedFrames xs ++ enqueuedFrames ys := by
  simp [enqueuedFrames]

/-- Frame conservation: the frames displayed, followed by the frames
still queued at the end, are exactly the initial queue followed by the
arrivals of the ticks the loop consumed — in arrival order. -/
theorem loopRun_fifo (sec : Int) :
    ∀ (sched : List Tick) (s : WState),
      (∀ t ∈ sched, validTick t) →
      (∀ f ∈ s.queue, f.length = panelPixelCount) →
      ∃ k ≤ sched.length,
        (loopRun sec s sched).shown ++ (loopRun sec s sched).final.queue =
          s.queue ++ enqueuedFrames (sched.take k) := by
  intro sched
  induction sched with
  | nil =>
    intro s _ _
    exact ⟨0, Nat.le_refl _, by simp [loopRun, enqueuedFrames_nil]⟩
  | cons t rest ih =>
    intro s hv hq
    have hv2 : ∀ u ∈ rest, validTick u := fun u hu => hv u (List.mem_cons_of_mem _ hu)
    by_cases hs : t.shutdown
    · refine ⟨1, by simp, ?_⟩
      simp [loopRun, hs, enqueuedFrames_cons, enqueuedFrames_nil]
    · cases hq2 : s.queue ++ t.arrivals with
      | nil =>
        rcases List.append_eq_nil.mp hq2 with ⟨hq0, ha0⟩
        rcases ih ⟨[], true⟩ hv2 (by intro f hf; cases hf) with ⟨k, hk, heq⟩
        refine ⟨k + 1, by simpa using Nat.succ_le_succ hk, ?_⟩
        simp only [loopRun, hs, hq2]
        simpa [enqueuedFrames_cons, ha0, hq0] using heq
      | cons f q2 =>
        have hqv : ∀ g ∈ s.queue ++ t.arrivals, g.length = panelPixelCount := by
          intro g hg
          rcases List.mem_append.mp hg with h | h
          · exact hq g h
          · exact hv t (List.mem_cons_self _ _) g h
        have hf : f.length = panelPixelCount := hqv f (hq2 ▸ List.mem_cons_self _ _)
        have hq2v : ∀ g ∈ q2, g.length = panelPixelCount := fun g hg =>
          hqv g (hq2 ▸ List.mem_cons_of_mem _ hg)
        rcases ih ⟨q2, false⟩ hv2 hq2v with ⟨k, hk, heq⟩
        refine ⟨k + 1, by simpa using Nat.succ_le_succ hk, ?_⟩
        have hsplit : s.queue ++ enqueuedFrames ((t :: rest).take (k + 1)) =
            (f :: q2) ++ enqueuedFrames (rest.take k) := by
          simp [enqueuedFrames_cons, ← hq2]
        rw [hsplit]
        simp only [loopRun, hs, hq2, showCycle_of_valid sec hf]
        simpa using heq

/-- C2: FIFO order — for every configuration and schedule of valid
frames, the sequence of frames the worker displays is exactly the
enqueue sequence up to the not-yet-displayed backlog: what was shown
plus the final queue contents equals the arrivals of the consumed ticks
in arrival order, and hence the shown sequence is a prefix of the full
enqueue sequence (no reordering, no dropping, no coalescing). -/
theorem frames_shown_in_enqueue_order (env : Option String) (sec : Int)
    (sched : List Tick)
    (hsec : imgDspSecOf env = some sec)
    (hv : ∀ t ∈ sched, validTick t) :
    (∃ k ≤ sched.length,
        (thread_display env sched).shown ++
            (thread_display env sched).final.queue =
          enqueuedFrames (sched.take k)) ∧
    ∃ backlog, (thread_display env sched).shown ++ backlog =
        enqueuedFrames sched := by
  rcases loopRun_fifo sec sched ⟨[], false⟩ hv (by intro f hf; cases hf)
    with ⟨k, hk, heq⟩
  have hsh : (thread_display env sched).shown =
      (loopRun sec ⟨[], false⟩ sched).shown := by
    simp [thread_display, hsec]
  have hfin : (thread_display env sched).final =
      (loopRun sec ⟨[], false⟩ sched).final := by
    simp [thread_display, hsec]
  constructor
  · exact ⟨k, hk, by rw [hsh, hfin]; simpa using heq⟩
  · have heq2 : (loopRun sec ⟨[], false⟩ sched).shown ++
        (loopRun sec ⟨[], false⟩ sched).final.queue =
        enqueuedFrames (sched.take k) := by simpa using heq
    refine ⟨(loopRun sec ⟨[], false⟩ sched).final.queue ++
      enqueuedFrames (sched.drop k), ?_⟩
    rw [hsh, ← List.append_assoc, heq2, ← enqueuedFrames_append,
      List.take_append_drop]

/-- Witness for C2: one valid frame arrives, then shutdown; the frame
was shown (or still queued) in arrival order. -/
theorem frames_shown_in_enqueue_order_witness :
    (∃ k ≤ ([⟨false, [clearFrame]⟩, ⟨true, []⟩] : List Tick).length,
        (thread_display none [⟨false, [clearFrame]⟩, ⟨true, []⟩]).shown ++
            (thread_display none [⟨false, [clearFrame]⟩, ⟨true, []⟩]).final.queue =
          enqueuedFrames (([⟨false, [clearFrame]⟩, ⟨true, []⟩] : List Tick).take k)) ∧
    ∃ backlog,
      (thread_display none [⟨false, [clearFrame]⟩, ⟨true, []⟩]).shown ++ backlog =
        enqueuedFrames [⟨false, [clearFrame]⟩, ⟨true, []⟩] :=
  frames_shown_in_enqueue_order none 10 [⟨false, [clearFrame]⟩, ⟨true, []⟩] rfl
    (by
      intro t ht f hf
      rcases List.mem_cons.mp ht with h | h
      · subst h
        simp only [List.mem_singleton] at hf
        subst hf
        exact clearFrame_length
      · rcases List.mem_cons.mp h with h2 | h2
        · subst h2
          cases hf
        · cases h2)

/-! ## The display cycle -/

/-- C3: the exact operation and delay sequence for one dequeued frame:
`turn_on`, 0.25 s, `set_backlight(1)`, `draw`, 5 s, `set_color_mode(666)`,
`draw` again (same frame), the configured hold duration, then — the queue
now being empty — `set_backlight(0)`, 1 s, `turn_off`. -/
theorem single_frame_cycle_sequence (env : Option String) (sec : Int)
    (f : Frame)
    (hsec : imgDspSecOf env = some sec) (hf : f.length = panelPixelCount) :
    (thread_display env [⟨false, [f]⟩, ⟨false, []⟩]).trace =
      startOps ++ initOps ++
      [.waitSig 1000,
       .logInfo "thread_display | Got data. Displaying",
       .turnOn, .sleep 250, .setBacklight 1,
       .draw f, .sleep 5000, .setColorMode 666, .draw f,
       .sleep (sec * 1000),
       .logDebug "thread_display | Display Done",
       .waitSig 1000,
       .logInfo "thread_display | No data data. Turning off.",
       .setBacklight 0, .sleep 1000, .turnOff] := by
  simp [thread_display, hsec, loopRun, showCycle_of_valid sec hf, idleOps]

/-- Witness for C3: the default configuration and the all-black frame. -/
theorem single_frame_cycle_sequence_witness :
    (thread_display none [⟨false, [clearFrame]⟩, ⟨false, []⟩]).trace =
      startOps ++ initOps ++
      [.waitSig 1000,
       .logInfo "thread_display | Got data. Displaying",
       .turnOn, .sleep 250, .setBacklight 1,
       .draw clearFrame, .sleep 5000, .setColorMode 666, .draw clearFrame,
       .sleep (10 * 1000),
       .logDebug "thread_display | Display Done",
       .waitSig 1000,
       .logInfo "thread_display | No data data. Turning off.",
       .setBacklight 0, .sleep 1000, .turnOff] :=
  single_frame_cycle_sequence none 10 clearFrame rfl clearFrame_length

/-! ## Edge-triggered idle logging -/

/-- Recognises the idle-episode "turning off" log line of line 65. -/
def isNoDataLog : Op → Bool
  | .logInfo msg => msg == "thread_display | No data data. Turning off."
  | _ => false

/-- Running the loop from an idle state whose flag is already set over
empty ticks yields one silent power-down block per tick. -/
theorem loopRun_idle_replicate (sec : Int) (n : Nat) :
    loopRun sec ⟨[], true⟩ (List.replicate n ⟨false, []⟩) =
      ⟨(List.replicate n (Op.waitSig 1000 :: idleOps true)).flatten,
       [], .suspended, ⟨[], true⟩⟩ := by
  induction n with
  | zero => simp [loopRun]
  | succ n ih => simp [List.replicate_succ, loopRun, ih]

theorem countP_noData_idle_true_blocks (n : Nat) :
    ((List.replicate n (Op.waitSig 1000 :: idleOps true)).flatten).countP
      isNoDataLog = 0 := by
  induction n with
  | zero => simp
  | succ n ih => simp [List.replicate_succ, idleOps, isNoDataLog, ih]

/-- C7: within one idle episode following a dequeued frame the
"turning off" log line is emitted exactly once, on the first empty poll
tick; all later empty ticks of the episode power down silently, because
the edge-trigger flag is only re-armed by the dequeue. -/
theorem idle_log_once_per_episode (sec : Int) (s : WState) (f : Frame)
    (n : Nat)
    (hq : s.queue = []) (hf : f.length = panelPixelCount) :
    (loopRun sec s (⟨false, [f]⟩ :: List.replicate (n + 1) ⟨false, []⟩)).trace =
      Op.waitSig 1000 :: ((showCycle sec f).1 ++
        ((Op.waitSig 1000 :: idleOps false) ++
         (List.replicate n (Op.waitSig 1000 :: idleOps true)).flatten)) ∧
    ((loopRun sec s
        (⟨false, [f]⟩ :: List.replicate (n + 1) ⟨false, []⟩)).trace).countP
      isNoDataLog = 1 := by
  have htr : (loopRun sec s
      (⟨false, [f]⟩ :: List.replicate (n + 1) ⟨false, []⟩)).trace =
      Op.waitSig 1000 :: ((showCycle sec f).1 ++
        ((Op.waitSig 1000 :: idleOps false) ++
         (List.replicate n (Op.waitSig 1000 :: idleOps true)).flatten)) := by
    simp [loopRun, hq, showCycle_of_valid sec hf, List.replicate_succ,
      loopRun_idle_replicate, idleOps]
  refine ⟨htr, ?_⟩
  rw [htr]
  simp [List.countP_cons, List.countP_append, showCycle_of_valid sec hf,
    idleOps, isNoDataLog, countP_noData_idle_true_blocks]

/-- Witness for C7: a frame then two empty polls; the log line appears
once. -/
theorem idle_log_once_per_episode_witness :
    (loopRun 10 ⟨[], false⟩
        (⟨false, [clearFrame]⟩ :: List.replicate (1 + 1) ⟨false, []⟩)).trace =
      Op.waitSig 1000 :: ((showCycle 10 clearFrame).1 ++
        ((Op.waitSig 1000 :: idleOps false) ++
         (List.replicate 1 (Op.waitSig 1000 :: idleOps true)).flatten)) ∧
    ((loopRun 10 ⟨[], false⟩
        (⟨false, [clearFrame]⟩ :: List.replicate (1 + 1) ⟨false, []⟩)).trace).countP
      isNoDataLog = 1 :=
  idle_log_once_per_episode 10 ⟨[], false⟩ clearFrame 1 rfl clearFrame_length

/-! ## Configuration -/

/-- C8: the hold duration is read once at worker start from
`IMAGE_DISPLAY_SEC` (unset ⇒ the default string `"10"`, i.e. 10 whole
seconds; set ⇒ Python `int` of the value), and the value obtained at
start is the hold delay of every display cycle: each dequeue performed
with startup value `sec` sleeps `sec` seconds (`sec * 1000` ms) after
the second draw. -/
theorem hold_duration_read_once_at_start (sec : Int) :
    imgDspSecOf none = some 10 ∧
    (∀ (v : String), imgDspSecOf (some v) = pyInt v) ∧
    (∀ (f : Frame), f.length = panelPixelCount →
        (showCycle sec f).1 =
          [.logInfo "thread_display | Got data. Displaying",
           .turnOn, .sleep 250, .setBacklight 1,
           .draw f, .sleep 5000, .setColorMode 666, .draw f,
           .sleep (sec * 1000),
           .logDebug "thread_display | Display Done"]) ∧
    (∀ (s : WState) (t : Tick) (f : Frame) (q2 : List Frame)
        (rest : List Tick),
        t.shutdown = false → s.queue ++ t.arrivals = f :: q2 →
        f.length = panelPixelCount →
        (loopRun sec s (t :: rest)).trace =
          .waitSig 1000 :: ((showCycle sec f).1 ++
            (loopRun sec ⟨q2, false⟩ rest).trace)) := by
  refine ⟨rfl, fun v => rfl, ?_, ?_⟩
  · intro f hf
    rw [showCycle_of_valid sec hf]
  · intro s t f q2 rest hs hq hf
    simp [loopRun, hs, hq, showCycle_of_valid sec hf]

/-- Witness for C8: the default configuration; the cycle of a valid
frame holds it for 10 seconds. -/
theorem hold_duration_read_once_at_start_witness :
    imgDspSecOf none = some 10 ∧
      (showCycle 10 clearFrame).1 =
        [.logInfo "thread_display | Got data. Displaying",
         .turnOn, .sleep 250, .setBacklight 1,
         .draw clearFrame, .sleep 5000, .setColorMode 666, .draw clearFrame,
         .sleep (10 * 1000),
         .logDebug "thread_display | Display Done"] :=
  ⟨(hold_duration_read_once_at_start 10).1,
   (hold_duration_read_once_at_start 10).2.2.1 clearFrame clearFrame_length⟩

/-- C10: a value of `IMAGE_DISPLAY_SEC` that Python's `int` rejects
makes the worker stop with `ValueError` right after the start log —
before the hardware is acquired, initialized or drawn to, and before any
loop state is entered; parsing succeeds exactly when the variable is
unset or holds a string `int` accepts. -/
theorem bad_config_fails_before_hardware :
    (∀ (v : String) (sched : List Tick), pyInt v = none →
        thread_display (some v) sched =
          ⟨[.logInfo "thread_display | Start."], [], .crashed .valueError,
           ⟨[], false⟩⟩) ∧
    (∀ (v : String), (imgDspSecOf (some v)).isSome = (pyInt v).isSome) ∧
    (imgDspSecOf none).isSome = true := by
  refine ⟨?_, fun v => rfl, rfl⟩
  intro v sched hv
  simp [thread_display, imgDspSecOf, hv, startOps]

/-- Witness for C10: the unparsable value `"ten"`. -/
theorem bad_config_fails_before_hardware_witness :
    thread_display (some "ten") [⟨false, []⟩] =
      ⟨[.logInfo "thread_display | Start."], [], .crashed .valueError,
       ⟨[], false⟩⟩ :=
  bad_config_fails_before_hardware.1 "ten" [⟨false, []⟩] rfl

/-! ## Malformed frames -/

/-- C4 counterexample: an empty frame queued ahead of a valid frame.
The draw's `InvalidFrameSize` is not caught — the `except` clause of the
loop catches only `queue.Empty` — so the worker neither drops the frame
with a warning nor continues: it crashes, displays nothing, and the
valid frame behind the malformed one is left queued, never drawn. -/
theorem malformed_frame_not_dropped :
    (thread_display none [⟨false, [[], clearFrame]⟩, ⟨false, []⟩]).result =
        .crashed .invalidFrameSize ∧
      (thread_display none [⟨false, [[], clearFrame]⟩, ⟨false, []⟩]).shown = [] ∧
      (thread_display none [⟨false, [[], clearFrame]⟩, ⟨false, []⟩]).final.queue =
        [clearFrame] := by
  have h0 : ([] : Frame).length ≠ panelPixelCount := by decide
  have hsec : imgDspSecOf none = some 10 := rfl
  simp [thread_display, hsec, loopRun, showCycle_of_invalid 10 h0]

/-- C4 amended: a dequeued frame whose length differs from the panel
pixel count terminates the worker with `InvalidFrameSize` after the
power-up half of its cycle (`turn_on`, settle, backlight on); no frame
is displayed, the loop's cleanup does not run, and only the scoped
hardware release follows. -/
theorem malformed_frame_terminates_worker (env : Option String) (sec : Int)
    (f : Frame) (fs : List Frame) (rest : List Tick)
    (hsec : imgDspSecOf env = some sec)
    (hf : f.length ≠ panelPixelCount) :
    (thread_display env (⟨false, f :: fs⟩ :: rest)).result =
        .crashed .invalidFrameSize ∧
      (thread_display env (⟨false, f :: fs⟩ :: rest)).shown = [] ∧
      (thread_display env (⟨false, f :: fs⟩ :: rest)).trace =
        startOps ++ initOps ++
        [.waitSig 1000, .logInfo "thread_display | Got data. Displaying",
         .turnOn, .sleep 250, .setBacklight 1, .release] := by
  simp [thread_display, hsec, loopRun, showCycle_of_invalid sec hf]

/-- Witness for the amended C4: a concrete 3-pixel frame. -/
theorem malformed_frame_terminates_worker_witness :
    (thread_display none [⟨false, [[(0, 0, 0), (0, 0, 0), (0, 0, 0)]]⟩]).result =
        .crashed .invalidFrameSize ∧
      (thread_display none [⟨false, [[(0, 0, 0), (0, 0, 0), (0, 0, 0)]]⟩]).shown
        = [] ∧
      (thread_display none [⟨false, [[(0, 0, 0), (0, 0, 0), (0, 0, 0)]]⟩]).trace =
        startOps ++ initOps ++
        [.waitSig 1000, .logInfo "thread_display | Got data. Displaying",
         .turnOn, .sleep 250, .setBacklight 1, .release] :=
  malformed_frame_terminates_worker none 10 [(0, 0, 0), (0, 0, 0), (0, 0, 0)]
    [] [] rfl (by decide)

end QrDisplay
